import Mathlib

/-!
Verification of the per-item output caching and rendering contract of
`fluent_contents/extensions/pluginbase.py` (`ContentPlugin`).

The Python class is shallowly embedded: the per-plugin class attributes that
the cache/render subsystem reads become a `PluginCfg` record, the ambient
Django collaborators (`settings.SITE_ID`, the `Site` registry, the key-value
cache backend, the template renderer, `ugettext`) become explicit arguments,
and each method becomes a pure Lean function over those arguments.
Content-item instances are identified by their stable identifier (`Nat`),
placeholder names are strings, site ids are natural numbers (Django primary
keys).
-/

namespace FluentContents

/-- Modelled from the spec: `get_rendering_cache_key` lives in
`fluent_contents/cache.py`, which is not part of the provided sources; the
spec describes it as a pure function mapping (placeholder identifier,
content-item instance) to a stable cache key string, deterministic given the
placeholder name and the instance identity.  We model it as a concrete such
function. -/
def get_rendering_cache_key (placeholder_name : String) (inst : Nat) : String :=
  "contentitem." ++ placeholder_name ++ ".output." ++ toString inst

/-- The `ContentPlugin` class attributes read by the caching and rendering
methods: `cache_output`, `cache_output_per_site`, `render_template` (a
missing template attribute is `none`; Python also treats an empty string as
falsy, kept below), and the plugin class name used by `render`'s fallback
message. -/
structure PluginCfg where
  cache_output : Bool
  cache_output_per_site : Bool
  render_template : Option String
  className : String

/-- Decimal representation of a site id, modelling Python's
`"{0}-s{1}".format(...)` / `str(int)` formatting of `settings.SITE_ID`.
Digits are produced most-significant first. -/
def natDecimalAux : Nat → List Char → List Char
  | 0, acc => acc
  | n + 1, acc => natDecimalAux ((n + 1) / 10) (Char.ofNat (48 + (n + 1) % 10) :: acc)
  decreasing_by exact Nat.div_lt_self (Nat.succ_pos n) (by decide)

/-- `str(n)` for a natural number, decimal. -/
def natDecimal (n : Nat) : String :=
  if n = 0 then "0" else ⟨natDecimalAux n []⟩

/-- `ContentPlugin.get_output_cache_key` (pluginbase.py lines 214-223):
derive the single cache key used to store a rendered item; when
`cache_output_per_site` is set, the current `settings.SITE_ID` is appended
as a `-s<id>` suffix. -/
def get_output_cache_key (cfg : PluginCfg) (SITE_ID : Nat)
    (placeholder_name : String) (inst : Nat) : String :=
  let cachekey := get_rendering_cache_key placeholder_name inst
  if cfg.cache_output_per_site then
    cachekey ++ "-s" ++ natDecimal SITE_ID
  else
    cachekey

/-- `ContentPlugin.get_output_cache_keys` (pluginbase.py lines 226-245):
all possible cache keys for a rendered item.  `siteIds` models
`Site.objects.values_list('pk', flat=True)`; as in the Python, the current
`settings.SITE_ID` is appended when it is not already listed. -/
def get_output_cache_keys (cfg : PluginCfg) (SITE_ID : Nat) (siteIds : List Nat)
    (placeholder_name : String) (inst : Nat) : List String :=
  if cfg.cache_output_per_site then
    let site_ids := if SITE_ID ∈ siteIds then siteIds else siteIds ++ [SITE_ID]
    let base_key := get_rendering_cache_key placeholder_name inst
    site_ids.map (fun site_id => base_key ++ "-s" ++ natDecimal site_id)
  else
    [get_output_cache_key cfg SITE_ID placeholder_name inst]

/-- The external Django key-value cache backend, modelled as a partial map
from keys to stored strings. -/
def CacheStore : Type := String → Option String

/-- `cache.set` of the external backend: store a value under one key. -/
def cacheSet (store : CacheStore) (key value : String) : CacheStore :=
  fun k => if k = key then some value else store k

/-- `ContentPlugin.get_cached_output` (pluginbase.py lines 248-258): read
the cached output through the single derived key. -/
def get_cached_output (cfg : PluginCfg) (SITE_ID : Nat) (store : CacheStore)
    (placeholder_name : String) (inst : Nat) : Option String :=
  let cachekey := get_output_cache_key cfg SITE_ID placeholder_name inst
  store cachekey

/-- `ContentPlugin.set_cached_output` (pluginbase.py lines 261-274): store
the rendered output through the single derived key. -/
def set_cached_output (cfg : PluginCfg) (SITE_ID : Nat) (store : CacheStore)
    (placeholder_name : String) (inst : Nat) (html : String) : CacheStore :=
  let cachekey := get_output_cache_key cfg SITE_ID placeholder_name inst
  cacheSet store cachekey html

/-! Error rendering.  `ContentPlugin.render_error` interpolates
`linebreaks(escape(str(error)))` into a fixed inline error block.  The
Django collaborators `django.utils.html.escape` and
`django.utils.html.linebreaks` are modelled character-exactly below, and
`ugettext` is modelled as the identity translation. -/

/-- `django.utils.html.escape`, per character: the chain of `.replace`
calls (`&` first, then `<`, `>`, `"`, the apostrophe) amounts to this map on
each character of the original string; entities introduced by earlier
replacements are never re-escaped because `&` is replaced first. -/
def escapeChar (c : Char) : String :=
  if c = '&' then "&amp;"
  else if c = '<' then "&lt;"
  else if c = '>' then "&gt;"
  else if c = '"' then "&quot;"
  else if c = '\x27' then "&#39;"
  else String.singleton c

/-- `django.utils.html.escape` on a whole string. -/
def escape (s : String) : String :=
  ⟨s.data.flatMap (fun c => (escapeChar c).data)⟩

/-- `django.utils.text.normalize_newlines`: `\r\n` and bare `\r` become
`\n`. -/
def normalizeNL : List Char → List Char
  | [] => []
  | '\r' :: '\n' :: rest => '\n' :: normalizeNL rest
  | '\r' :: rest => '\n' :: normalizeNL rest
  | c :: rest => c :: normalizeNL rest

/-- Group a character list into maximal runs of newline / non-newline
characters (the separator structure used by `re.split` on a newline-run
pattern). -/
def groupRuns : List Char → List (List Char)
  | [] => []
  | c :: rest =>
    match groupRuns rest with
    | [] => [[c]]
    | [] :: gs => [c] :: [] :: gs
    | (d :: g) :: gs =>
      if (c == '\n') == (d == '\n') then (c :: d :: g) :: gs
      else [c] :: (d :: g) :: gs

/-- Merge a run into the first paragraph of an already-split tail. -/
def mergeHead (g : List Char) : List (List Char) → List (List Char)
  | [] => [g]
  | p :: ps => (g ++ p) :: ps

/-- Rebuild paragraphs from runs: a newline run of length at least two is a
paragraph separator (`re.split` on two-or-more newlines), any other run is
paragraph text. -/
def joinRuns : List (List Char) → List (List Char)
  | [] => [[]]
  | g :: gs =>
    if g.head? = some '\n' ∧ 2 ≤ g.length then [] :: joinRuns gs
    else mergeHead g (joinRuns gs)

/-- Replace each remaining single newline by a `<br />` tag, as the
paragraph body substitution of `django.utils.html.linebreaks` does. -/
def brData : List Char → List Char
  | [] => []
  | '\n' :: rest => '<' :: 'b' :: 'r' :: ' ' :: '/' :: '>' :: brData rest
  | c :: rest => c :: brData rest

/-- `django.utils.html.linebreaks`: normalize newlines, split into
paragraphs on runs of two or more newlines, wrap each paragraph in
`<p>...</p>` with single newlines as `<br />`, and join the paragraphs with
a blank line. -/
def linebreaks (value : String) : String :=
  ⟨List.intercalate ['\n', '\n']
    ((joinRuns (groupRuns (normalizeNL value.data))).map
      (fun p => "<p>".data ++ brData p ++ "</p>".data))⟩

/-- `ContentPlugin.render_error` (pluginbase.py lines 309-314): the inline
error block, with `_('Error:')` modelled as the untranslated message id. -/
def render_error (error : String) : String :=
  "<div style=\"color: red; border: 1px solid red; padding: 5px;\"><p><strong>" ++
    "Error:" ++ "</strong></p>" ++ linebreaks (escape error) ++ "</div>"

/-- Substring occurrence check over character lists (used for the concrete
escaping checks). -/
def listStarts : List Char → List Char → Bool
  | [], _ => true
  | _ :: _, [] => false
  | a :: as, b :: bs => a == b && listStarts as bs

/-- Does `needle` occur contiguously anywhere in the second list? -/
def occursIn (needle : List Char) : List Char → Bool
  | [] => needle.isEmpty
  | l@(_ :: rest) => listStarts needle l || occursIn needle rest

/-! The rendering entry points.  The external template renderer
(`render_to_string` with a `PluginContext`) is abstracted as a function
argument; a request is identified by an opaque id. -/

/-- A host-framework request (opaque at this layer). -/
structure Request where
  id : Nat

/-- A value stored in a template context (the default context only carries
the content-item instance). -/
inductive ContextVal where
  | inst (i : Nat)
deriving DecidableEq

/-- `ContentPlugin.get_context` (pluginbase.py lines 325-332): default
template context, the model instance under the key `"instance"`. -/
def get_context (request : Request) (inst : Nat) : List (String × ContextVal) :=
  [("instance", ContextVal.inst inst)]

/-- `ContentPlugin.get_render_template` (pluginbase.py lines 317-322):
by default the `render_template` class attribute. -/
def get_render_template (cfg : PluginCfg) (request : Request) (inst : Nat) :
    Option String :=
  cfg.render_template

/-- The localized fallback message of `ContentPlugin.render`:
`_(u"{No rendering defined for class '%s'}" % self.__class__.__name__)`,
with `ugettext` modelled as the identity translation. -/
def no_rendering_msg (cfg : PluginCfg) : String :=
  "\x7bNo rendering defined for class \x27" ++ cfg.className ++ "\x27\x7d"

/-- `ContentPlugin.render` (pluginbase.py lines 277-297): select the render
template (a missing template — Python-falsy, i.e. `None` or the empty
string — short-circuits to the localized fallback message), build the
context, and hand both to the external template renderer. -/
def render (cfg : PluginCfg)
    (renderer : String → List (String × ContextVal) → String)
    (request : Request) (inst : Nat) : String :=
  match get_render_template cfg request inst with
  | none => no_rendering_msg cfg
  | some t =>
    if t = "" then no_rendering_msg cfg
    else renderer t (get_context request inst)

/-! `ContentPlugin.type_id` memoization.  The content-type registry lookup
(`ContentType.objects.get_for_model`) is the external collaborator; its
outcome is passed in as an `Except`: a `DatabaseError` before the registry
is initialized is the error case.  `type_id` returns its result together
with the plugin state (`self._type_id`), which `__init__` starts as
`none`. -/

/-- The single piece of mutable plugin state, `self._type_id`. -/
structure TypeIdState where
  _type_id : Option Nat
deriving DecidableEq

/-- `ContentPlugin.__init__` (pluginbase.py lines 163-164): the memo starts
empty. -/
def initPluginState : TypeIdState := ⟨none⟩

/-- The message of the `DatabaseError` re-raised by `type_id` when the
content-type lookup fails. -/
def dbErrorMessage (e : String) : String :=
  "Unable to fetch ContentType object, is a plugin being registered before the initial syncdb? (original error: " ++
    e ++ ")"

/-- `ContentPlugin.type_id` (pluginbase.py lines 187-198): return the memo
when present; otherwise consult the registry, memoize on success, and on a
`DatabaseError` re-raise it wrapped, leaving the memo empty. -/
def type_id (st : TypeIdState) (lookup : Except String Nat) :
    Except String Nat × TypeIdState :=
  match st._type_id with
  | some t => (Except.ok t, st)
  | none =>
    match lookup with
    | Except.ok t => (Except.ok t, ⟨some t⟩)
    | Except.error e => (Except.error (dbErrorMessage e), st)

end FluentContents

namespace FluentContents

theorem escapeChar_no_angle (c : Char) :
    ∀ d ∈ (escapeChar c).data, d ≠ '<' ∧ d ≠ '>' := by
  unfold escapeChar
  split_ifs with h1 h2 h3 h4 h5
  · decide
  · decide
  · decide
  · decide
  · decide
  · intro d hd
    have hdc : d = c := by simpa [String.singleton] using hd
    subst hdc
    exact ⟨h2, h3⟩

theorem escape_no_angle (s : String) :
    ∀ d ∈ (escape s).data, d ≠ '<' ∧ d ≠ '>' := by
  intro d hd
  have hd' : d ∈ s.data.flatMap (fun c => (escapeChar c).data) := hd
  rcases List.mem_flatMap.mp hd' with ⟨c, _, hc⟩
  exact escapeChar_no_angle c d hc

/-- Claim C1: with per-site caching disabled, `get_output_cache_keys`
returns exactly one key, the base key; with it enabled it returns one key
per known site id, plus one for the current site id exactly when that id is
not among the known ones, so the length is `|knownSites|` when the current
site is known and `|knownSites| + 1` when it is not. -/
theorem get_output_cache_keys_complete (co ps : Bool) (rt : Option String)
    (cn : String) (SITE_ID : Nat) (siteIds : List Nat)
    (placeholder_name : String) (inst : Nat) :
    get_output_cache_keys ⟨co, ps, rt, cn⟩ SITE_ID siteIds placeholder_name inst =
      (if ps then
        (if SITE_ID ∈ siteIds then siteIds else siteIds ++ [SITE_ID]).map
          (fun site_id =>
            get_rendering_cache_key placeholder_name inst ++ "-s" ++ natDecimal site_id)
       else [get_rendering_cache_key placeholder_name inst]) ∧
    (get_output_cache_keys ⟨co, ps, rt, cn⟩ SITE_ID siteIds placeholder_name inst).length =
      (if ps then
        (if SITE_ID ∈ siteIds then siteIds.length else siteIds.length + 1)
       else 1) := by
  constructor
  · cases ps <;> simp [get_output_cache_keys, get_output_cache_key]
  · cases ps <;>
      by_cases h : SITE_ID ∈ siteIds <;>
        simp [get_output_cache_keys, get_output_cache_key, h]

/-- Claim C2: the single key returned by `get_output_cache_key` is always a
member of the key sequence returned by `get_output_cache_keys`, for every
per-site setting, known-site list and current site id. -/
theorem get_output_cache_key_mem_keys (cfg : PluginCfg) (SITE_ID : Nat)
    (siteIds : List Nat) (placeholder_name : String) (inst : Nat) :
    get_output_cache_key cfg SITE_ID placeholder_name inst ∈
      get_output_cache_keys cfg SITE_ID siteIds placeholder_name inst := by
  by_cases hps : cfg.cache_output_per_site = true
  · simp only [get_output_cache_keys, get_output_cache_key, hps, if_true, List.mem_map]
    refine ⟨SITE_ID, ?_, rfl⟩
    by_cases h : SITE_ID ∈ siteIds <;> simp [h]
  · simp [get_output_cache_keys, hps]

/-- Claim C3: `set_cached_output` followed by `get_cached_output` with the
same per-site configuration and current site id returns exactly the stored
output, and both operations address the store through the same single
derived key. -/
theorem cached_output_roundtrip (cfg : PluginCfg) (SITE_ID : Nat)
    (store : CacheStore) (placeholder_name : String) (inst : Nat) (html : String) :
    get_cached_output cfg SITE_ID
        (set_cached_output cfg SITE_ID store placeholder_name inst html)
        placeholder_name inst = some html ∧
    get_cached_output cfg SITE_ID store placeholder_name inst =
      store (get_output_cache_key cfg SITE_ID placeholder_name inst) ∧
    set_cached_output cfg SITE_ID store placeholder_name inst html =
      cacheSet store (get_output_cache_key cfg SITE_ID placeholder_name inst) html := by
  refine ⟨?_, rfl, rfl⟩
  simp [get_cached_output, set_cached_output, cacheSet]

/-! Injectivity of the decimal site-id suffix, needed for the per-site key
separation property: `natDecimal` is inverted by a decimal parser. -/

/-- Little-endian decimal digits of a natural number (empty for `0`). -/
def digitsLE : Nat → List Nat
  | 0 => []
  | n + 1 => ((n + 1) % 10) :: digitsLE ((n + 1) / 10)
  decreasing_by exact Nat.div_lt_self (Nat.succ_pos n) (by decide)

theorem digitsLE_lt10 (n : Nat) : ∀ d ∈ digitsLE n, d < 10 := by
  induction n using Nat.strong_induction_on with
  | _ n ih =>
    match n with
    | 0 => simp [digitsLE]
    | m + 1 =>
      rw [digitsLE]
      intro d hd
      rcases List.mem_cons.mp hd with h | h
      · subst h; exact Nat.mod_lt _ (by decide)
      · exact ih ((m + 1) / 10) (Nat.div_lt_self (Nat.succ_pos m) (by decide)) d h

theorem digitsLE_foldr (n : Nat) :
    (digitsLE n).foldr (fun d a => a * 10 + d) 0 = n := by
  induction n using Nat.strong_induction_on with
  | _ n ih =>
    match n with
    | 0 => simp [digitsLE]
    | m + 1 =>
      rw [digitsLE]
      simp only [List.foldr_cons]
      rw [ih ((m + 1) / 10) (Nat.div_lt_self (Nat.succ_pos m) (by decide))]
      omega

theorem natDecimalAux_eq (n : Nat) : ∀ acc : List Char,
    natDecimalAux n acc =
      (digitsLE n).reverse.map (fun d => Char.ofNat (48 + d)) ++ acc := by
  induction n using Nat.strong_induction_on with
  | _ n ih =>
    match n with
    | 0 => intro acc; simp [natDecimalAux, digitsLE]
    | m + 1 =>
      intro acc
      rw [natDecimalAux, digitsLE,
        ih ((m + 1) / 10) (Nat.div_lt_self (Nat.succ_pos m) (by decide))]
      simp [List.map_append]

/-- Decimal parser inverting `natDecimal`. -/
def decVal (l : List Char) : Nat :=
  l.foldl (fun a c => a * 10 + (c.toNat - 48)) 0

theorem foldr_digitChar_eq (ds : List Nat) (h : ∀ d ∈ ds, d < 10) :
    ds.foldr (fun d a => a * 10 + ((Char.ofNat (48 + d)).toNat - 48)) 0 =
      ds.foldr (fun d a => a * 10 + d) 0 := by
  induction ds with
  | nil => rfl
  | cons d rest ihr =>
    have hd : d < 10 := h d (List.mem_cons_self d rest)
    have hrest := ihr (fun e he => h e (List.mem_cons_of_mem d he))
    simp only [List.foldr_cons, hrest]
    have : (Char.ofNat (48 + d)).toNat - 48 = d := by
      revert hd
      have : ∀ e < 10, (Char.ofNat (48 + e)).toNat - 48 = e := by decide
      exact this d
    rw [this]

theorem decVal_natDecimal (n : Nat) : decVal (natDecimal n).data = n := by
  by_cases h : n = 0
  · subst h; decide
  · have hdata : (natDecimal n).data = natDecimalAux n [] := by
      simp [natDecimal, h]
    rw [hdata, natDecimalAux_eq n [], List.append_nil, decVal, List.map_reverse,
      List.foldl_reverse, List.foldr_map]
    have := foldr_digitChar_eq (digitsLE n) (digitsLE_lt10 n)
    simpa using this.trans (digitsLE_foldr n)

theorem natDecimal_injective {m n : Nat} (h : natDecimal m = natDecimal n) :
    m = n := by
  have := congrArg (fun s : String => decVal s.data) h
  simpa [decVal_natDecimal] using this

/-- Claim C6: with per-site caching enabled, two key derivations for the
same item in the same placeholder on the same site produce the same key,
and key derivations for two different site ids produce different keys. -/
theorem per_site_keys_separate (co : Bool) (rt : Option String) (cn : String)
    (s₁ s₂ : Nat) (placeholder_name : String) (inst : Nat) :
    (s₁ = s₂ →
      get_output_cache_key ⟨co, true, rt, cn⟩ s₁ placeholder_name inst =
        get_output_cache_key ⟨co, true, rt, cn⟩ s₂ placeholder_name inst) ∧
    (s₁ ≠ s₂ →
      get_output_cache_key ⟨co, true, rt, cn⟩ s₁ placeholder_name inst ≠
        get_output_cache_key ⟨co, true, rt, cn⟩ s₂ placeholder_name inst) := by
  constructor
  · rintro rfl; rfl
  · intro hne heq
    apply hne
    apply natDecimal_injective
    have hdata := congrArg String.data heq
    simp only [get_output_cache_key, if_true] at hdata
    have hcancel :
        (natDecimal s₁).data = (natDecimal s₂).data := by
      have h₁ : ((get_rendering_cache_key placeholder_name inst ++ "-s") ++
          natDecimal s₁).data =
          (get_rendering_cache_key placeholder_name inst ++ "-s").data ++
            (natDecimal s₁).data := rfl
      have h₂ : ((get_rendering_cache_key placeholder_name inst ++ "-s") ++
          natDecimal s₂).data =
          (get_rendering_cache_key placeholder_name inst ++ "-s").data ++
            (natDecimal s₂).data := rfl
      exact List.append_cancel_left (h₁ ▸ h₂ ▸ hdata)
    exact congrArg String.mk hcancel

/-- Closed-form check for `per_site_keys_separate`: both hypotheses are
discharged at concrete inputs. -/
theorem per_site_keys_separate_witness :
    ((1 : Nat) = 1 ∧
      get_output_cache_key ⟨true, true, none, "P"⟩ 1 "ph" 7 =
        get_output_cache_key ⟨true, true, none, "P"⟩ 1 "ph" 7) ∧
    ((1 : Nat) ≠ 2 ∧
      get_output_cache_key ⟨true, true, none, "P"⟩ 1 "ph" 7 ≠
        get_output_cache_key ⟨true, true, none, "P"⟩ 2 "ph" 7) :=
  ⟨⟨rfl, (per_site_keys_separate true none "P" 1 1 "ph" 7).1 rfl⟩,
   ⟨by decide, (per_site_keys_separate true none "P" 1 2 "ph" 7).2 (by decide)⟩⟩

/-- Claim C7: with `cache_output = true` and `cache_output_per_site = false`,
the derived cache key is independent of the current site id, and therefore
`get_cached_output` reads the same single cache entry under any two
current-site contexts. -/
theorem cache_key_site_independent (rt : Option String) (cn : String)
    (s₁ s₂ : Nat) (store : CacheStore) (placeholder_name : String) (inst : Nat) :
    get_output_cache_key ⟨true, false, rt, cn⟩ s₁ placeholder_name inst =
      get_output_cache_key ⟨true, false, rt, cn⟩ s₂ placeholder_name inst ∧
    get_cached_output ⟨true, false, rt, cn⟩ s₁ store placeholder_name inst =
      get_cached_output ⟨true, false, rt, cn⟩ s₂ store placeholder_name inst :=
  ⟨rfl, rfl⟩

/-- Claim C8: `get_output_cache_key` is a pure deterministic function of the
placeholder name, the instance identity, the per-site flag and the current
site id: it is independent of every other piece of plugin configuration, and
two calls with the same arguments return the identical key string. -/
theorem get_output_cache_key_deterministic (co₁ co₂ ps : Bool)
    (rt₁ rt₂ : Option String) (cn₁ cn₂ : String) (SITE_ID : Nat)
    (placeholder_name : String) (inst : Nat) :
    get_output_cache_key ⟨co₁, ps, rt₁, cn₁⟩ SITE_ID placeholder_name inst =
      get_output_cache_key ⟨co₂, ps, rt₂, cn₂⟩ SITE_ID placeholder_name inst ∧
    get_output_cache_key ⟨co₁, ps, rt₁, cn₁⟩ SITE_ID placeholder_name inst =
      get_output_cache_key ⟨co₁, ps, rt₁, cn₁⟩ SITE_ID placeholder_name inst :=
  ⟨by cases ps <;> rfl, rfl⟩

/-- Claim C4: `render_error` returns the inline error block with the
escaped string form of the error interpolated (through `linebreaks`), and
the escaped content contains no raw angle bracket, so markup inside the
error message can never survive unescaped; concretely, an error message
containing `<script>` renders with `&lt;script&gt;` as text and the raw
`<script>` tag does not occur anywhere in the block. -/
theorem render_error_escapes :
    (∀ error : String,
      render_error error =
        "<div style=\"color: red; border: 1px solid red; padding: 5px;\"><p><strong>Error:</strong></p>" ++
          linebreaks (escape error) ++ "</div>" ∧
      ∀ d ∈ (escape error).data, d ≠ '<' ∧ d ≠ '>') ∧
    occursIn "&lt;script&gt;".data
      (render_error "<script>alert(1)</script>").data = true ∧
    occursIn "<script>".data
      (render_error "<script>alert(1)</script>").data = false :=
  ⟨fun error => ⟨rfl, escape_no_angle error⟩, by decide, by decide⟩

/-- Claim C5: when no render template is defined, `render` does not fail
and does not invoke the template renderer: `get_render_template` yields
`none`, the output is the localized no-rendering-defined message, and the
output is the same for any two template renderers. -/
theorem render_without_template (co cop : Bool) (cn : String)
    (renderer₁ renderer₂ : String → List (String × ContextVal) → String)
    (request : Request) (inst : Nat) :
    get_render_template ⟨co, cop, none, cn⟩ request inst = none ∧
    render ⟨co, cop, none, cn⟩ renderer₁ request inst =
      "\x7bNo rendering defined for class \x27" ++ cn ++ "\x27\x7d" ∧
    render ⟨co, cop, none, cn⟩ renderer₁ request inst =
      render ⟨co, cop, none, cn⟩ renderer₂ request inst :=
  ⟨rfl, rfl, rfl⟩

/-- Claim C9: the default `get_context` returns exactly the one-entry
mapping binding `"instance"` to the given instance — its key list is
exactly `["instance"]`. -/
theorem get_context_default (request : Request) (inst : Nat) :
    get_context request inst = [("instance", ContextVal.inst inst)] ∧
    (get_context request inst).map Prod.fst = ["instance"] :=
  ⟨rfl, rfl⟩

/-- Claim C10: on a fresh plugin, a failing content-type lookup makes
`type_id` surface the wrapped registry error and leaves nothing memoized
(the state still holds `none`); a successful lookup memoizes the type id,
and every later access returns that same id and state no matter what the
registry would answer then. -/
theorem type_id_registry (e : String) (t : Nat) (later : Except String Nat) :
    type_id initPluginState (Except.error e) =
      (Except.error (dbErrorMessage e), initPluginState) ∧
    type_id initPluginState (Except.ok t) = (Except.ok t, ⟨some t⟩) ∧
    type_id ⟨some t⟩ later = (Except.ok t, ⟨some t⟩) :=
  ⟨rfl, rfl, rfl⟩

end FluentContents
